import Mathlib

/-!
Verification of the ClaudeUp repository-bootstrap tool (`claudeup.py`).

The Python source is shallowly embedded: each method of the `ClaudeUp`
class becomes a Lean function.  Network effects (GitHub REST calls) are
modelled by an `Api` oracle record of response values; subprocess
invocations of `git` are modelled by environment records carrying the
exit codes the tool would observe; the filesystem is an association
list from path strings to file contents.  All definitions are
executable so that concrete runs can be checked by `decide` / `rfl`.
-/

set_option autoImplicit false

namespace ClaudeUp

/-! ## String helpers (Python primitives used by claudeup.py) -/

/-- `isPrefOf p s` : Python `s.startswith(p)` viewed on character lists. -/
def isPrefOf : List Char → List Char → Bool
  | [], _ => true
  | _ :: _, [] => false
  | a :: as, b :: bs => a == b && isPrefOf as bs

/-- `containsSub needle hay` : Python `needle in hay` (substring test) on
character lists. -/
def containsSub (needle : List Char) : List Char → Bool
  | [] => isPrefOf needle []
  | c :: rest => isPrefOf needle (c :: rest) || containsSub needle rest

/-- Python `needle in hay` on strings. -/
def containsStr (needle hay : String) : Bool :=
  containsSub needle.data hay.data

/-- Python `s.lower()` (ASCII view, which covers every string the tool
compares). -/
def strLower (s : String) : String :=
  ⟨s.data.map Char.toLower⟩

/-- One step-bounded pass of Python `s.replace(old, new)` (left-to-right,
non-overlapping, every occurrence).  The fuel bounds the recursion; with
`fuel = s.length` and a non-empty pattern this matches the Python
semantics exactly.  claudeup.py only ever calls it with the non-empty pattern
`"https://github.com/"`. -/
def pyReplaceFuel (pat rep : List Char) : Nat → List Char → List Char
  | _, [] => []
  | 0, s => s
  | fuel + 1, c :: rest =>
    if !pat.isEmpty && isPrefOf pat (c :: rest) then
      rep ++ pyReplaceFuel pat rep fuel ((c :: rest).drop pat.length)
    else
      c :: pyReplaceFuel pat rep fuel rest

/-- Python `s.replace(old, new)` for a non-empty `old`. -/
def pyReplace (s pat rep : List Char) : List Char :=
  pyReplaceFuel pat rep s.length s

/-! ## Data model: GitHub API requests and responses -/

/-- The JSON payload claudeup.py posts to `POST /user/repos`
(claudeup.py lines 64-69). -/
structure RepoPayload where
  name : String
  description : String
  private_ : Bool
  auto_init : Bool
  deriving DecidableEq, Repr

/-- The fields of a repository record that claudeup.py reads from API
responses: `id`, `name`, `full_name`, `clone_url`, `html_url`. -/
structure RepoData where
  id : Nat
  name : String
  full_name : String
  clone_url : String
  html_url : String
  deriving DecidableEq, Repr

/-- Response to `POST /user/repos`: HTTP status, the parsed `message`
field of the JSON body (absent when the body has none), the raw body
text, and the body parsed as a repository (read only on 201). -/
structure CreateRepoResponse where
  status : Nat
  message : Option String
  text : String
  repo : RepoData
  deriving DecidableEq, Repr

/-- Response to `GET /user`: HTTP status and the `login` field. -/
structure UserResponse where
  status : Nat
  login : String
  deriving DecidableEq, Repr

/-- Response to `GET /repos/{owner}/{repo}`. -/
structure RepoResponse where
  status : Nat
  repo : RepoData
  deriving DecidableEq, Repr

/-- Oracle for the GitHub REST API: what the remote would answer to each
request the tool can issue during one run. -/
structure Api where
  createRepo : RepoPayload → CreateRepoResponse
  getUser : UserResponse
  getRepo : String → String → RepoResponse

deriving instance DecidableEq for Except

/-- `True` exactly on `Except.error`. -/
def exceptIsError {ε α : Type} : Except ε α → Bool
  | .error _ => true
  | .ok _ => false

/-! ## create_repository / get_repository (claudeup.py lines 46-105) -/

/-- The request body built by `ClaudeUp.create_repository`
(claudeup.py lines 64-69); `auto_init` is always `False`. -/
def create_repository_payload (repo_name : String) (description : String)
    (private_ : Bool) : RepoPayload :=
  { name := repo_name, description := description, private_ := private_,
    auto_init := false }

/-- `ClaudeUp.get_repository` (claudeup.py lines 89-105): fetch the
authenticated user, then fetch `/repos/{login}/{repo_name}`.  A raised
`Exception` is an `Except.error` carrying the exception message. -/
def get_repository (api : Api) (repo_name : String) : Except String RepoData :=
  if api.getUser.status ≠ 200 then
    Except.error "Failed to get user information"
  else
    let response := api.getRepo api.getUser.login repo_name
    if response.status = 200 then
      Except.ok response.repo
    else
      Except.error ("Failed to get repository: " ++ toString response.status)

/-- `ClaudeUp.create_repository` (claudeup.py lines 46-87).  Returns the
payload it posted (making the request observable) together with the
outcome: `201` succeeds; `422` whose `message` contains
`"already exists"` (case-insensitively) falls back to
`get_repository`; any other `422` or any other status raises. -/
def create_repository (api : Api) (repo_name : String)
    (description : String := "") (private_ : Bool := true) :
    RepoPayload × Except String RepoData :=
  let payload := create_repository_payload repo_name description private_
  let response := api.createRepo payload
  (payload,
    if response.status = 201 then
      Except.ok response.repo
    else if response.status = 422 then
      let error_msg := response.message.getD "Unknown error"
      if containsStr "already exists" (strLower error_msg) then
        get_repository api repo_name
      else
        Except.error ("Failed to create repository: " ++ error_msg)
    else
      Except.error ("Failed to create repository: " ++ toString response.status
        ++ " - " ++ response.text))

/-! ## add_collaborator (claudeup.py lines 107-135) -/

/-- `ClaudeUp.add_collaborator` (claudeup.py lines 107-135), given the
status the remote answers to `PUT .../collaborators/{username}`.
Returns the success flag and the printed lines (quote characters of the
source messages elided). -/
def add_collaborator (status : Nat) (username : String) : Bool × List String :=
  if status = 201 ∨ status = 204 then
    (true, ["Added " ++ username ++ " as collaborator"])
  else if status = 404 then
    (false, ["Warning: User " ++ username ++ " not found on GitHub",
             "  You may need to manually add the collaborator later"])
  else
    (false, ["Warning: Failed to add collaborator: " ++ toString status,
             "  You may need to manually add " ++ username ++ " as a collaborator"])

/-! ## App installations (claudeup.py lines 137-267) -/

/-- An entry of `GET /user/installations` as claudeup.py reads it:
`installation.get("app_slug")` (absent key modelled as `none`),
`installation.get("account", {}).get("login", "")`, and
`installation.get("id")`. -/
structure Installation where
  app_slug : Option String
  account_login : String
  id : Option Nat
  deriving DecidableEq, Repr

/-- `ClaudeUp.list_installations` (claudeup.py lines 137-152): the
`installations` list on 200, the empty list (plus a warning) otherwise. -/
def list_installations (status : Nat) (installations : List Installation) :
    List Installation :=
  if status = 200 then installations else []

/-- The value Python binds to `app` in `find_app_installation`
(claudeup.py line 167): `installation.get("app_slug") or
installation.get("account", {}).get("login", "")` — the account login is
consulted only when `app_slug` is absent or empty (Python falsiness). -/
def effectiveApp (installation : Installation) : String :=
  match installation.app_slug with
  | some s => if s = "" then installation.account_login else s
  | none => installation.account_login

/-- The loop condition of `find_app_installation` (claudeup.py line 168):
`app_slug.lower() in app.lower()`. -/
def matchesSlug (app_slug : String) (installation : Installation) : Bool :=
  containsStr (strLower app_slug) (strLower (effectiveApp installation))

/-- `ClaudeUp.find_app_installation` (claudeup.py lines 154-171): first
installation of the (already fetched) list whose `app`
(see `effectiveApp`) contains the requested slug case-insensitively. -/
def find_app_installation (installations : List Installation)
    (app_slug : String) : Option Installation :=
  match installations with
  | [] => none
  | installation :: rest =>
    if matchesSlug app_slug installation then some installation
    else find_app_installation rest app_slug

/-- `ClaudeUp.add_repo_to_app_installation` (claudeup.py lines 173-193),
given the status oracle of `PUT /user/installations/{id}/repositories/{repoId}`:
204 succeeds, 304 means already added (also success), anything else fails. -/
def add_repo_to_app_installation (attachStatus : Nat → Nat → Nat)
    (installation_id repo_id : Nat) : Bool :=
  let status := attachStatus installation_id repo_id
  if status = 204 then true
  else if status = 304 then true
  else false

/-- The fallback half of `ClaudeUp.install_github_app`
(claudeup.py lines 229-267): resolve the installation by slug; on no
match print the two manual fix paths and return `False` (non-fatal);
on a match attach the repository, treating falsy ids as failure.
Printed lines are modelled without the quote characters of the source. -/
def install_github_app_find (repo_data : RepoData)
    (installations : List Installation) (attachStatus : Nat → Nat → Nat)
    (app_slug : String) : Bool × List String :=
  match find_app_installation installations app_slug with
  | none =>
    (false,
     ["Warning: GitHub App " ++ app_slug ++ " not found in your installations",
      "",
      "  This usually happens because classic GitHub PATs cannot list app installations.",
      "  To fix this, you have two options:",
      "",
      "  Option 1: Provide the installation ID manually",
      "    1. Visit: https://github.com/settings/installations",
      "    2. Click Configure next to the Claude app",
      "    3. Look at the URL - it ends with /installations/XXXXXXXX",
      "    4. Copy that number and run: claudeup --installation-id XXXXXXXX " ++ repo_data.name,
      "",
      "  Option 2: Manually add the repository",
      "    1. Visit: https://github.com/settings/installations",
      "    2. Click Configure next to the Claude app",
      "    3. Add the repository: " ++ repo_data.full_name])
  | some installation =>
    match installation.id with
    | none =>
      (false, ["Warning: Could not get installation ID or repository ID"])
    | some iid =>
      if iid = 0 ∨ repo_data.id = 0 then
        (false, ["Warning: Could not get installation ID or repository ID"])
      else if add_repo_to_app_installation attachStatus iid repo_data.id then
        (true, ["Added repository to " ++ installation.app_slug.getD app_slug
                ++ " GitHub App installation"])
      else
        (false, ["Warning: Failed to add repository to GitHub App installation",
                 "  You may need to manually add the repository in the app settings"])

/-- `ClaudeUp.install_github_app` (claudeup.py lines 195-267).  The Python test
`if installation_id:` treats both `None` and `0` as "not provided". -/
def install_github_app (repo_data : RepoData)
    (installations : List Installation) (attachStatus : Nat → Nat → Nat)
    (app_slug : String := "claude") (installation_id : Option Nat := none) :
    Bool × List String :=
  match installation_id with
  | some iid =>
    if iid ≠ 0 then
      if repo_data.id = 0 then
        (false, ["Warning: Could not get repository ID"])
      else if add_repo_to_app_installation attachStatus iid repo_data.id then
        (true, ["Added repository to GitHub App installation (ID: "
                ++ toString iid ++ ")"])
      else
        (false, ["Warning: Failed to add repository to GitHub App installation",
                 "  Verify the installation ID is correct: " ++ toString iid,
                 "  Check your app settings at: https://github.com/settings/installations"])
    else
      install_github_app_find repo_data installations attachStatus app_slug
  | none =>
    install_github_app_find repo_data installations attachStatus app_slug

/-! ## init_local_repo and the HTTPS → SSH URL rewrite (claudeup.py lines 269-308) -/

/-- The clone-URL rewrite of `ClaudeUp.init_local_repo`
(claudeup.py lines 285-292): when the URL starts with
`https://github.com/`, the Python `str.replace` substitutes **every**
occurrence of that substring by `git@github.com:`; otherwise the URL is
used verbatim. -/
def toSshUrl (clone_url : String) : String :=
  if isPrefOf "https://github.com/".data clone_url.data then
    ⟨pyReplace clone_url.data "https://github.com/".data "git@github.com:".data⟩
  else
    clone_url

/-- Exit codes and filesystem facts `init_local_repo` observes from its
subprocess calls. -/
structure InitEnv where
  gitDirExists : Bool
  initExit : Nat
  getUrlExit : Nat
  setUrlExit : Nat
  addRemoteExit : Nat
  deriving DecidableEq, Repr

/-- `ClaudeUp.init_local_repo` (claudeup.py lines 269-308): `git init`
when no `.git` exists (fatal on failure), then set or add the `origin`
remote depending on whether `git remote get-url origin` succeeds (each
fatal on failure, since those calls use `check=True`).  Returns the
configured remote URL. -/
def init_local_repo (env : InitEnv) (repo_data : RepoData) :
    Except String String :=
  if !env.gitDirExists && env.initExit != 0 then
    Except.error "git init failed"
  else
    let ssh_url := toSshUrl repo_data.clone_url
    if env.getUrlExit = 0 then
      if env.setUrlExit ≠ 0 then Except.error "git remote set-url failed"
      else Except.ok ssh_url
    else
      if env.addRemoteExit ≠ 0 then Except.error "git remote add failed"
      else Except.ok ssh_url

/-! ## create_initial_files (claudeup.py lines 310-362) -/

/-- The workspace filesystem: an association list from path (relative to
the workspace root) to file contents. -/
abbrev FS : Type := List (String × String)

/-- Read a file: `Path.exists` / `Path.read_text` view. -/
def fsRead (fs : FS) (p : String) : Option String :=
  match fs.find? (fun e => e.1 == p) with
  | some e => some e.2
  | none => none

/-- `Path.write_text`: create or overwrite. -/
def fsWrite (fs : FS) (p c : String) : FS :=
  (p, c) :: fs.filter (fun e => !(e.1 == p))

/-- The `README.md` template of `create_initial_files`
(claudeup.py lines 315-326), including the Python-falsy default for an
empty description. -/
def readme_content (repo_name description : String) : String :=
  "# " ++ repo_name ++ "\n\n"
    ++ (if description = "" then "A project created with ClaudeUp" else description)
    ++ "\n\n## About\n\nThis repository was automatically set up using ClaudeUp for use with Claude Code Web.\n\n## Getting Started\n\n[Add your getting started instructions here]\n"

/-- The `.gitignore` template of `create_initial_files`
(claudeup.py lines 333-360). -/
def gitignore_content : String :=
  "# Python\n__pycache__/\n*.py[cod]\n*$py.class\n*.so\n.Python\nenv/\nvenv/\nENV/\nbuild/\ndist/\n*.egg-info/\n\n# IDEs\n.vscode/\n.idea/\n*.swp\n*.swo\n*~\n\n# OS\n.DS_Store\nThumbs.db\n\n# Environment variables\n.env\n.env.local\n"

/-- `ClaudeUp.create_initial_files` (claudeup.py lines 310-362): write
`README.md` and `.gitignore`, each only when absent.  It takes no
instructions argument and writes no other file. -/
def create_initial_files (fs : FS) (repo_name description : String) : FS :=
  let fs1 :=
    if (fsRead fs "README.md").isSome then fs
    else fsWrite fs "README.md" (readme_content repo_name description)
  if (fsRead fs1 ".gitignore").isSome then fs1
  else fsWrite fs1 ".gitignore" gitignore_content

/-- Modelled from the spec: `scaffoldFiles(path, name, description,
instructions?)` of spec §4.1.  The instructions handling — a hidden
task-notes directory with an instructions file holding the verbatim
instructions plus a disposability notice, always (re)written when
instructions are supplied — exists only in the spec; no such code is in
src/claudeup.py, whose `create_initial_files` is the README/.gitignore
part only.  The spec names neither the directory nor the file, so they
are rendered here as `.task-notes/instructions.md`. -/
def scaffoldFiles_spec (fs : FS) (repo_name description : String)
    (instructions : Option String) : FS :=
  let fs1 := create_initial_files fs repo_name description
  match instructions with
  | none => fs1
  | some instr =>
    fsWrite fs1 ".task-notes/instructions.md"
      (instr ++ "\n\nThis file is disposable: it records only the current invocation of the tool.\n")

/-! ## commit_and_push (claudeup.py lines 364-412) -/

/-- The git subprocess invocations `commit_and_push` can issue. -/
inductive GitCmd where
  | add
  | diffCached
  | commit
  | showCurrent
  | revParse (branch : String)
  | checkout (branch : String)
  | checkoutNew (branch : String)
  | push (branch : String)
  deriving DecidableEq, Repr

/-- Exit codes `commit_and_push` observes from git, plus the current
branch name that `git branch --show-current` prints. -/
structure GitEnv where
  addExit : Nat
  diffCachedExit : Nat
  commitExit : Nat
  showCurrentExit : Nat
  currentBranch : String
  revParseExit : Nat
  checkoutExit : Nat
  checkoutNewExit : Nat
  pushExit : Nat
  deriving DecidableEq, Repr

/-- `ClaudeUp.commit_and_push` (claudeup.py lines 364-412).  `Except.ok`
returns the trace of git commands run; `Except.error c` models the
`subprocess.CalledProcessError` raised by the `check=True` call `c`
(`git add .`, `git commit`, `git branch --show-current`, `git checkout`,
`git push`; the `diff --cached --quiet` and `rev-parse --verify` probes
only have their exit codes consulted). -/
def commit_and_push (env : GitEnv) (branch : String := "main") :
    Except GitCmd (List GitCmd) :=
  if env.addExit ≠ 0 then Except.error GitCmd.add
  else if env.diffCachedExit = 0 then
    -- "No changes to commit": return before committing or pushing
    Except.ok [GitCmd.add, GitCmd.diffCached]
  else if env.commitExit ≠ 0 then Except.error GitCmd.commit
  else if env.showCurrentExit ≠ 0 then Except.error GitCmd.showCurrent
  else
    let switch : Except GitCmd (List GitCmd) :=
      if env.currentBranch ≠ branch then
        if env.revParseExit = 0 then
          if env.checkoutExit ≠ 0 then Except.error (GitCmd.checkout branch)
          else Except.ok [GitCmd.revParse branch, GitCmd.checkout branch]
        else
          if env.checkoutNewExit ≠ 0 then Except.error (GitCmd.checkoutNew branch)
          else Except.ok [GitCmd.revParse branch, GitCmd.checkoutNew branch]
      else Except.ok []
    match switch with
    | Except.error c => Except.error c
    | Except.ok mid =>
      if env.pushExit ≠ 0 then Except.error (GitCmd.push branch)
      else Except.ok ([GitCmd.add, GitCmd.diffCached, GitCmd.commit,
        GitCmd.showCurrent] ++ mid ++ [GitCmd.push branch])

/-! ## setup and main (claudeup.py lines 414-561) -/

/-- The arguments `ClaudeUp.setup` receives (claudeup.py lines 414-423). -/
structure SetupArgs where
  repo_name : String
  description : String
  path : Option String
  add_collaborator : Bool
  install_app : Bool
  app_slug : String
  installation_id : Option Nat
  deriving DecidableEq, Repr

/-- The external world one run of `setup` interacts with: the API
oracle, the response to the installations listing, the attach and
collaborator statuses, the local git environments, the working
directory and the starting filesystem. -/
structure SetupEnv where
  api : Api
  instListStatus : Nat
  installations : List Installation
  attachStatus : Nat → Nat → Nat
  collabStatus : Nat
  init : InitEnv
  git : GitEnv
  cwd : String
  fs : FS
  claude_username : String

/-- What a completed run reports (claudeup.py lines 461-470): warnings
printed by the commit-and-push recovery, the repository web URL and the
local path of the final summary, and the resulting workspace files. -/
structure SetupSummary where
  warnings : List String
  url : String
  path : String
  fs : FS

/-- Outcome of `setup`: the repository-creation payload it posted, and
either the fatal exception message or the completion summary. -/
structure SetupOutcome where
  createRequest : RepoPayload
  result : Except String SetupSummary

/-- `ClaudeUp.setup` (claudeup.py lines 414-470): create (or fetch) the
repository — fatal on failure; best-effort app installation and
collaborator grant (results ignored); initialize the local repository —
fatal on failure; create the initial files; then `commit_and_push`
inside `try/except subprocess.CalledProcessError`, downgrading any such
error to a warning.  The run then reports the repository URL and the
local path. -/
def setup (env : SetupEnv) (sa : SetupArgs) : SetupOutcome :=
  let path := sa.path.getD env.cwd
  let cr := create_repository env.api sa.repo_name sa.description
  { createRequest := cr.1,
    result :=
      match cr.2 with
      | Except.error e => Except.error e
      | Except.ok repo_data =>
        let _ :=
          if sa.install_app then
            install_github_app repo_data
              (list_installations env.instListStatus env.installations)
              env.attachStatus sa.app_slug sa.installation_id
          else (true, [])
        let _ :=
          if sa.add_collaborator && env.claude_username != "" then
            add_collaborator env.collabStatus env.claude_username
          else (true, [])
        match init_local_repo env.init repo_data with
        | Except.error e => Except.error e
        | Except.ok _ =>
          let fs2 := create_initial_files env.fs sa.repo_name sa.description
          let warnings :=
            match commit_and_push env.git "main" with
            | Except.error _ =>
              ["Warning: Failed to push to remote",
               "  You can manually push later with: git push -u origin main"]
            | Except.ok _ => []
          Except.ok { warnings := warnings, url := repo_data.html_url,
                      path := path, fs := fs2 } }

/-- The command-line arguments `main` parses (claudeup.py lines 475-528),
including the `--public` flag. -/
structure Args where
  repo_name : String
  description : String
  path : Option String
  claude_username : String
  no_collaborator : Bool
  no_app : Bool
  app_slug : String
  installation_id : Option Nat
  public : Bool
  deriving DecidableEq, Repr

/-- The argument record `main` passes to `ClaudeUp.setup`
(claudeup.py lines 546-554).  `args.public` is not among the forwarded
fields. -/
def main_setupCall (args : Args) : SetupArgs :=
  { repo_name := args.repo_name,
    description := args.description,
    path := args.path,
    add_collaborator := !args.no_collaborator,
    install_app := !args.no_app,
    app_slug := args.app_slug,
    installation_id := args.installation_id }

/-- `main` after successful token resolution (claudeup.py lines 541-554):
construct the `ClaudeUp` instance with `args.claude_username` and run
`setup` with the forwarded arguments. -/
def main_run (args : Args) (env : SetupEnv) : SetupOutcome :=
  setup { env with claude_username := args.claude_username }
    (main_setupCall args)

/-! ## Sample environments (concrete runs used to witness the theorems) -/

/-- A concrete repository record as the API would return it. -/
def repo0 : RepoData :=
  { id := 42, name := "demo", full_name := "alice/demo",
    clone_url := "https://github.com/alice/demo",
    html_url := "https://github.com/alice/demo" }

/-- An API oracle whose create call succeeds with 201. -/
def apiCreated : Api :=
  { createRepo := fun _ =>
      { status := 201, message := none, text := "", repo := repo0 },
    getUser := { status := 200, login := "alice" },
    getRepo := fun _ _ => { status := 200, repo := repo0 } }

/-- An API oracle whose create call reports the name-taken conflict and
whose fetch of the existing repository succeeds. -/
def apiExists : Api :=
  { createRepo := fun _ =>
      { status := 422,
        message := some "name already exists on this account",
        text := "body", repo := repo0 },
    getUser := { status := 200, login := "alice" },
    getRepo := fun _ _ => { status := 200, repo := repo0 } }

/-- An API oracle whose create call fails with a 422 that is not a
name-taken conflict. -/
def api422bad : Api :=
  { createRepo := fun _ =>
      { status := 422, message := some "Validation Failed",
        text := "body", repo := repo0 },
    getUser := { status := 200, login := "alice" },
    getRepo := fun _ _ => { status := 200, repo := repo0 } }

/-- An installation whose `app_slug` is present but unrelated, while its
account login is `claude`. -/
def instOther : Installation :=
  { app_slug := some "other-app", account_login := "claude", id := some 7 }

/-- A git environment in which staging succeeds and the staged tree
matches the last commit (`git diff --cached --quiet` exits 0). -/
def gitNoChanges : GitEnv :=
  { addExit := 0, diffCachedExit := 0, commitExit := 0, showCurrentExit := 0,
    currentBranch := "main", revParseExit := 1, checkoutExit := 0,
    checkoutNewExit := 0, pushExit := 0 }

/-- A git environment in which there are staged changes, the commit
succeeds, and the push fails. -/
def gitPushFails : GitEnv :=
  { gitNoChanges with diffCachedExit := 1, pushExit := 1 }

/-- A git environment in which there are staged changes and the commit
itself fails. -/
def gitCommitFails : GitEnv :=
  { gitNoChanges with diffCachedExit := 1, commitExit := 1 }

/-- A local environment in which initialization succeeds (fresh
directory, `origin` not yet configured). -/
def initOk : InitEnv :=
  { gitDirExists := false, initExit := 0, getUrlExit := 1, setUrlExit := 0,
    addRemoteExit := 0 }

/-- A fully successful external world. -/
def envBase : SetupEnv :=
  { api := apiCreated, instListStatus := 200, installations := [],
    attachStatus := fun _ _ => 204, collabStatus := 204, init := initOk,
    git := gitNoChanges, cwd := "/work", fs := [],
    claude_username := "claude-code-app" }

/-- `envBase` with a failing push. -/
def envPushFail : SetupEnv := { envBase with git := gitPushFails }

/-- `envBase` with a failing commit. -/
def envCommitFail : SetupEnv := { envBase with git := gitCommitFails }

/-- The `SetupArgs` of a plain `claudeup demo` invocation. -/
def saDemo : SetupArgs :=
  { repo_name := "demo", description := "", path := none,
    add_collaborator := true, install_app := true, app_slug := "claude",
    installation_id := none }

/-! ## Helper lemmas -/

theorem isPrefOf_append (p r : List Char) : isPrefOf p (p ++ r) = true := by
  induction p with
  | nil => rfl
  | cons a as ih => simp [isPrefOf, ih]

theorem pyReplaceFuel_of_not_contains (pat rep : List Char) :
    ∀ (fuel : Nat) (s : List Char), containsSub pat s = false →
      pyReplaceFuel pat rep fuel s = s := by
  intro fuel
  induction fuel with
  | zero => intro s _; cases s <;> rfl
  | succ n ih =>
    intro s hs
    cases s with
    | nil => rfl
    | cons c rest =>
      have hsplit : isPrefOf pat (c :: rest) = false ∧ containsSub pat rest = false := by
        have := hs
        simp [containsSub] at this
        exact this
      simp [pyReplaceFuel, hsplit.1, ih rest hsplit.2]

theorem pyReplaceFuel_step (pat rep : List Char) (fuel : Nat) (s : List Char)
    (hne : pat.isEmpty = false) (hpref : isPrefOf pat s = true) :
    pyReplaceFuel pat rep (fuel + 1) s =
      rep ++ pyReplaceFuel pat rep fuel (s.drop pat.length) := by
  cases s with
  | nil =>
    cases pat with
    | nil => simp [List.isEmpty] at hne
    | cons a as => simp [isPrefOf] at hpref
  | cons c rest => simp [pyReplaceFuel, hne, hpref]

theorem pyReplace_pref_once (pat rep rest : List Char)
    (hne : pat.isEmpty = false) (hnc : containsSub pat rest = false) :
    pyReplace (pat ++ rest) pat rep = rep ++ rest := by
  have hlen : (pat ++ rest).length = (pat.length - 1 + rest.length) + 1 := by
    rw [List.length_append]
    cases pat with
    | nil => simp [List.isEmpty] at hne
    | cons a as => simp; omega
  unfold pyReplace
  rw [hlen, pyReplaceFuel_step pat rep _ _ hne (isPrefOf_append pat rest),
    List.drop_left, pyReplaceFuel_of_not_contains pat rep _ rest hnc]

theorem fsRead_fsWrite_self (fs : FS) (p c : String) :
    fsRead (fsWrite fs p c) p = some c := by
  simp [fsRead, fsWrite, List.find?]

theorem find?_filter_ne (q p : String) (h : p ≠ q) :
    ∀ fs : List (String × String),
      List.find? (fun e => e.1 == p) (fs.filter (fun e => !(e.1 == q))) =
        List.find? (fun e => e.1 == p) fs := by
  intro fs
  induction fs with
  | nil => rfl
  | cons e rest ih =>
    by_cases heq : e.1 = q
    · have h1 : (!(e.1 == q)) = false := by simp [heq]
      have h2 : (e.1 == p) = false := by
        simp only [beq_eq_false_iff_ne, ne_eq, heq]
        exact fun hqp => h hqp.symm
      rw [List.filter_cons, if_neg (by simp [h1]), ih,
        List.find?_cons_of_neg _ (by simp [h2])]
    · have h1 : (!(e.1 == q)) = true := by simp [heq]
      rw [List.filter_cons, if_pos (by simp [h1])]
      by_cases hep : e.1 = p
      · rw [List.find?_cons_of_pos _ (by simp [hep]),
          List.find?_cons_of_pos _ (by simp [hep])]
      · rw [List.find?_cons_of_neg _ (by simp [hep]), ih,
          List.find?_cons_of_neg _ (by simp [hep])]

theorem fsRead_fsWrite_ne (fs : FS) (q c p : String) (h : p ≠ q) :
    fsRead (fsWrite fs q c) p = fsRead fs p := by
  have hq : (q == p) = false := by
    simp only [beq_eq_false_iff_ne, ne_eq]
    exact fun hqp => h hqp.symm
  unfold fsRead fsWrite
  rw [List.find?_cons_of_neg _ (by simp [hq]), find?_filter_ne q p h fs]

theorem find_app_installation_of_first (slug : String)
    (pre : List Installation) (inst : Installation) (suf : List Installation)
    (hpre : ∀ j ∈ pre, matchesSlug slug j = false)
    (hinst : matchesSlug slug inst = true) :
    find_app_installation (pre ++ inst :: suf) slug = some inst := by
  induction pre with
  | nil => simp [find_app_installation, hinst]
  | cons j rest ih =>
    have hj := hpre j (by simp)
    simp only [List.cons_append, find_app_installation, hj]
    exact ih (fun k hk => hpre k (by simp [hk]))

theorem find_app_installation_none (slug : String) :
    ∀ insts : List Installation, find_app_installation insts slug = none →
      ∀ i ∈ insts, matchesSlug slug i = false := by
  intro insts
  induction insts with
  | nil => intro _ i hi; simp at hi
  | cons a rest ih =>
    intro hnone i hi
    simp only [find_app_installation] at hnone
    by_cases ha : matchesSlug slug a = true
    · rw [if_pos ha] at hnone
      exact absurd hnone (by simp)
    · have ha' : matchesSlug slug a = false := by
        cases hmi : matchesSlug slug a
        · rfl
        · exact absurd hmi ha
      rw [if_neg ha] at hnone
      rcases List.mem_cons.mp hi with hieq | hmem
      · rw [hieq]; exact ha'
      · exact ih hnone i hmem

/-! ## Claim theorems -/

/-- C2: the claim says the command-line visibility toggle determines the
`private` flag of the repository-creation request (public ⇒ private
false).  The code parses `--public` (claudeup.py lines 522-526) but
`main` never forwards it (lines 546-554) and `setup` calls
`create_repository` with `private` left at its default `True`
(line 445): the posted payload has `private = true` even when
`--public` is supplied.  This theorem evaluates the embedded code on
arbitrary arguments with `public := true`. -/
theorem main_public_flag_ignored (args : Args) (env : SetupEnv) :
    (main_run { args with public := true } env).createRequest =
      create_repository_payload args.repo_name args.description true ∧
    (main_run { args with public := true } env).createRequest.private_ = true :=
  ⟨rfl, rfl⟩

/-- C4 counterexample: on a clone URL in which the HTTPS prefix occurs
twice, the code (Python `str.replace`) rewrites both occurrences, not
just the leading one as the claim states. -/
theorem toSshUrl_prefix_substitution_cex :
    isPrefOf "https://github.com/".data
      "https://github.com/https://github.com/x".data = true ∧
    toSshUrl "https://github.com/https://github.com/x" =
      "git@github.com:git@github.com:x" ∧
    toSshUrl "https://github.com/https://github.com/x" ≠
      "git@github.com:https://github.com/x" := by
  refine ⟨by decide, by decide, by decide⟩

/-- C4 (amended): a clone URL not starting with `https://github.com/`
passes through unchanged; a URL starting with it has every occurrence
of that substring replaced by `git@github.com:`, which on URLs
containing the substring only at the start (every real GitHub clone
URL, e.g. `https://github.com/acme/widgets`) coincides with
substituting the prefix. -/
theorem toSshUrl_spec (url : String) :
    (isPrefOf "https://github.com/".data url.data = false → toSshUrl url = url) ∧
    (∀ rest : List Char, url.data = "https://github.com/".data ++ rest →
      containsSub "https://github.com/".data rest = false →
      toSshUrl url = ⟨"git@github.com:".data ++ rest⟩) := by
  constructor
  · intro h
    simp [toSshUrl, h]
  · intro rest hdata hnc
    have hpref : isPrefOf "https://github.com/".data url.data = true := by
      rw [hdata]; exact isPrefOf_append _ _
    unfold toSshUrl
    rw [if_pos hpref, hdata, pyReplace_pref_once _ _ _ (by decide) hnc]

/-- C4 witness: `toSshUrl_spec` applied to the two concrete URLs of the
spec sentence. -/
theorem toSshUrl_spec_witness :
    toSshUrl "https://github.com/acme/widgets" = "git@github.com:acme/widgets" ∧
    toSshUrl "ssh://host/x" = "ssh://host/x" := by
  constructor
  · have h := (toSshUrl_spec "https://github.com/acme/widgets").2
      "acme/widgets".data (by decide) (by decide)
    rw [h]; decide
  · exact (toSshUrl_spec "ssh://host/x").1 (by decide)

/-- C6: when staging succeeds and the staged tree matches the last
commit (`git diff --cached --quiet` exits 0), `commit_and_push` returns
without error having run only `git add .` and the diff probe: no commit
is made and no push is attempted. -/
theorem commit_and_push_noop (env : GitEnv) (branch : String)
    (hadd : env.addExit = 0) (hdiff : env.diffCachedExit = 0) :
    commit_and_push env branch = Except.ok [GitCmd.add, GitCmd.diffCached] ∧
    GitCmd.commit ∉ [GitCmd.add, GitCmd.diffCached] ∧
    ∀ b, GitCmd.push b ∉ [GitCmd.add, GitCmd.diffCached] := by
  refine ⟨?_, by decide, by intro b; simp⟩
  simp [commit_and_push, hadd, hdiff]

/-- C6 witness: `commit_and_push_noop` on the concrete clean
environment. -/
theorem commit_and_push_noop_witness :
    commit_and_push gitNoChanges "main" = Except.ok [GitCmd.add, GitCmd.diffCached] ∧
    GitCmd.commit ∉ [GitCmd.add, GitCmd.diffCached] ∧
    ∀ b, GitCmd.push b ∉ [GitCmd.add, GitCmd.diffCached] :=
  commit_and_push_noop gitNoChanges "main" rfl rfl

/-- C1 counterexample: the claim describes an instructions file that
`scaffoldFiles` always (re)writes when instructions are supplied.  The
function `create_initial_files` of the source (claudeup.py lines 310-362) accepts no
instructions and writes nothing beyond `README.md` and `.gitignore`:
the spec-modelled `scaffoldFiles_spec` and the source function disagree
on a concrete invocation carrying instructions, and the file the claim
requires is absent from the output of the source function. -/
theorem scaffold_instructions_missing_cex :
    (create_initial_files [] "demo" "").map Prod.fst = [".gitignore", "README.md"] ∧
    fsRead (scaffoldFiles_spec [] "demo" "" (some "Build the demo"))
        ".task-notes/instructions.md" =
      some "Build the demo\n\nThis file is disposable: it records only the current invocation of the tool.\n" ∧
    fsRead (create_initial_files [] "demo" "") ".task-notes/instructions.md" = none := by
  refine ⟨by decide, by decide, by decide⟩

/-- C1 (amended): `create_initial_files` as written in the source takes no
instructions argument; it touches only `README.md` and `.gitignore`
(each only when absent) and never creates a task-notes directory or an
instructions file — every other path is left exactly as it was. -/
theorem create_initial_files_writes_only (fs : FS) (n d p : String)
    (h1 : p ≠ "README.md") (h2 : p ≠ ".gitignore") :
    fsRead (create_initial_files fs n d) p = fsRead fs p := by
  simp only [create_initial_files]
  by_cases hR : (fsRead fs "README.md").isSome = true
  · rw [if_pos hR]
    by_cases hG : (fsRead fs ".gitignore").isSome = true
    · rw [if_pos hG]
    · rw [if_neg hG, fsRead_fsWrite_ne fs ".gitignore" _ p h2]
  · rw [if_neg hR]
    by_cases hG : (fsRead (fsWrite fs "README.md" (readme_content n d))
        ".gitignore").isSome = true
    · rw [if_pos hG, fsRead_fsWrite_ne fs "README.md" _ p h1]
    · rw [if_neg hG, fsRead_fsWrite_ne _ ".gitignore" _ p h2,
        fsRead_fsWrite_ne fs "README.md" _ p h1]

/-- C1 witness: a pre-existing file at the modelled instructions path is
left untouched by `create_initial_files`. -/
theorem create_initial_files_writes_only_witness :
    fsRead (create_initial_files [(".task-notes/instructions.md", "old")] "demo" "")
      ".task-notes/instructions.md" = some "old" := by
  have h := create_initial_files_writes_only
    [(".task-notes/instructions.md", "old")] "demo" ""
    ".task-notes/instructions.md" (by decide) (by decide)
  rw [h]; rfl

/-- C7: `create_initial_files` never changes a pre-existing `README.md`
or `.gitignore`, and writes each of them (with its template content)
exactly when it is absent. -/
theorem create_initial_files_preserves_existing (fs : FS) (n d : String) :
    (∀ c, fsRead fs "README.md" = some c →
      fsRead (create_initial_files fs n d) "README.md" = some c) ∧
    (∀ c, fsRead fs ".gitignore" = some c →
      fsRead (create_initial_files fs n d) ".gitignore" = some c) ∧
    (fsRead fs "README.md" = none →
      fsRead (create_initial_files fs n d) "README.md" = some (readme_content n d)) ∧
    (fsRead fs ".gitignore" = none →
      fsRead (create_initial_files fs n d) ".gitignore" = some gitignore_content) := by
  refine ⟨?_, ?_, ?_, ?_⟩
  · intro c hc
    have hR : (fsRead fs "README.md").isSome = true := by rw [hc]; rfl
    simp only [create_initial_files]
    rw [if_pos hR]
    by_cases hG : (fsRead fs ".gitignore").isSome = true
    · rw [if_pos hG]; exact hc
    · rw [if_neg hG, fsRead_fsWrite_ne fs ".gitignore" _ "README.md" (by decide)]
      exact hc
  · intro c hc
    simp only [create_initial_files]
    by_cases hR : (fsRead fs "README.md").isSome = true
    · rw [if_pos hR]
      have hG : (fsRead fs ".gitignore").isSome = true := by rw [hc]; rfl
      rw [if_pos hG]; exact hc
    · rw [if_neg hR]
      have hG1 : fsRead (fsWrite fs "README.md" (readme_content n d)) ".gitignore" = some c := by
        rw [fsRead_fsWrite_ne fs "README.md" _ ".gitignore" (by decide)]; exact hc
      have hG : (fsRead (fsWrite fs "README.md" (readme_content n d)) ".gitignore").isSome = true := by
        rw [hG1]; rfl
      rw [if_pos hG]; exact hG1
  · intro hc
    have hR : ¬ (fsRead fs "README.md").isSome = true := by rw [hc]; simp
    simp only [create_initial_files]
    rw [if_neg hR]
    by_cases hG : (fsRead (fsWrite fs "README.md" (readme_content n d)) ".gitignore").isSome = true
    · rw [if_pos hG]; exact fsRead_fsWrite_self fs "README.md" _
    · rw [if_neg hG, fsRead_fsWrite_ne _ ".gitignore" _ "README.md" (by decide)]
      exact fsRead_fsWrite_self fs "README.md" _
  · intro hc
    simp only [create_initial_files]
    by_cases hR : (fsRead fs "README.md").isSome = true
    · rw [if_pos hR]
      have hG : ¬ (fsRead fs ".gitignore").isSome = true := by rw [hc]; simp
      rw [if_neg hG]
      exact fsRead_fsWrite_self fs ".gitignore" _
    · rw [if_neg hR]
      have hG1 : fsRead (fsWrite fs "README.md" (readme_content n d)) ".gitignore" = none := by
        rw [fsRead_fsWrite_ne fs "README.md" _ ".gitignore" (by decide)]; exact hc
      have hG : ¬ (fsRead (fsWrite fs "README.md" (readme_content n d)) ".gitignore").isSome = true := by
        rw [hG1]; simp
      rw [if_neg hG]
      exact fsRead_fsWrite_self _ ".gitignore" _

/-- C7 witness: `create_initial_files_preserves_existing` on a
workspace that already holds a `README.md`. -/
theorem create_initial_files_preserves_existing_witness :
    fsRead (create_initial_files [("README.md", "keep")] "demo" "") "README.md" = some "keep" ∧
    fsRead (create_initial_files [("README.md", "keep")] "demo" "") ".gitignore" = some gitignore_content :=
  ⟨(create_initial_files_preserves_existing [("README.md", "keep")] "demo" "").1 "keep" (by decide),
   (create_initial_files_preserves_existing [("README.md", "keep")] "demo" "").2.2.2 (by decide)⟩

/-- C5 counterexample: an installation whose `app_slug` is present but
unrelated while its account login contains the requested slug.  The
claim says such an installation is selected (app slug *or* account
login); the code consults the login only when `app_slug` is absent or
empty, so nothing is selected. -/
theorem find_app_installation_login_ignored_cex :
    containsStr (strLower "claude") (strLower instOther.account_login) = true ∧
    matchesSlug "claude" instOther = false ∧
    find_app_installation [instOther] "claude" = none := by
  refine ⟨by decide, by decide, by decide⟩

/-- C5 (amended): without an explicit installation id, the installation
selected is the first whose `app_slug` — or, only when `app_slug` is
absent or empty, whose account login — case-insensitively contains the
requested slug; when no installation satisfies this predicate the grant
returns `False` (non-fatal) after printing the two manual fix paths. -/
theorem find_app_installation_spec (slug : String) (insts : List Installation) :
    (∀ pre inst suf, insts = pre ++ inst :: suf →
      (∀ j ∈ pre, matchesSlug slug j = false) → matchesSlug slug inst = true →
      find_app_installation insts slug = some inst) ∧
    (find_app_installation insts slug = none →
      ∀ i ∈ insts, matchesSlug slug i = false) ∧
    (∀ (repo_data : RepoData) (attachStatus : Nat → Nat → Nat),
      find_app_installation insts slug = none →
      (install_github_app repo_data insts attachStatus slug none).1 = false ∧
      "  Option 1: Provide the installation ID manually" ∈
        (install_github_app repo_data insts attachStatus slug none).2 ∧
      "  Option 2: Manually add the repository" ∈
        (install_github_app repo_data insts attachStatus slug none).2) := by
  refine ⟨?_, find_app_installation_none slug insts, ?_⟩
  · intro pre inst suf hsplit hpre hinst
    rw [hsplit]
    exact find_app_installation_of_first slug pre inst suf hpre hinst
  · intro repo_data attachStatus hnone
    simp only [install_github_app, install_github_app_find, hnone]
    refine ⟨trivial, by simp, by simp⟩

/-- C5 witness: `find_app_installation_spec` applied to the concrete
non-matching installation list. -/
theorem find_app_installation_spec_witness :
    (install_github_app repo0 [instOther] (fun _ _ => 204) "claude" none).1 = false ∧
    "  Option 1: Provide the installation ID manually" ∈
      (install_github_app repo0 [instOther] (fun _ _ => 204) "claude" none).2 ∧
    "  Option 2: Manually add the repository" ∈
      (install_github_app repo0 [instOther] (fun _ _ => 204) "claude" none).2 :=
  (find_app_installation_spec "claude" [instOther]).2.2 repo0 (fun _ _ => 204) (by decide)

set_option linter.unusedVariables false in
/-- C3: when the first call created the repository and the create
attempt of the second call is answered 422 with a message containing
"already exists", the second call falls back to fetching the repository
under the authenticated account and returns it without error; assuming
the remote serves the same repository record, the returned id equals
the id from the first call. -/
theorem create_or_get_idempotent (api1 api2 : Api) (n d : String) (r1 : RepoData)
    (h1 : (create_repository api1 n d).2 = Except.ok r1)
    (h2 : (api2.createRepo (create_repository_payload n d true)).status = 422)
    (h3 : containsStr "already exists"
        (strLower ((api2.createRepo
          (create_repository_payload n d true)).message.getD "Unknown error")) = true)
    (h4 : api2.getUser.status = 200)
    (h5 : (api2.getRepo api2.getUser.login n).status = 200)
    (h6 : (api2.getRepo api2.getUser.login n).repo.id = r1.id) :
    (create_repository api2 n d).2 =
      Except.ok (api2.getRepo api2.getUser.login n).repo ∧
    (api2.getRepo api2.getUser.login n).repo.id = r1.id := by
  refine ⟨?_, h6⟩
  simp [create_repository, get_repository, h2, h3, h4, h5]

/-- C3 witness: `create_or_get_idempotent` on the concrete pair of API
oracles (first run creates, second run hits the conflict and falls
back). -/
theorem create_or_get_idempotent_witness :
    (create_repository apiExists "demo").2 =
      Except.ok (apiExists.getRepo apiExists.getUser.login "demo").repo ∧
    (apiExists.getRepo apiExists.getUser.login "demo").repo.id = repo0.id :=
  create_or_get_idempotent apiCreated apiExists "demo" "" repo0
    (by decide) (by decide) (by decide) (by decide) (by decide) (by decide)

/-- C9 counterexample: a 422 response whose message does not indicate
"already exists" is fatal (as the claim says), but the raised error
surfaces only the remote message — the status `422` appears nowhere
in the error text, contradicting "surfaces the remote status and
message" for this fatal case. -/
theorem create_repository_status_not_surfaced_cex :
    (create_repository api422bad "demo").2 =
      Except.error "Failed to create repository: Validation Failed" ∧
    (api422bad.createRepo (create_repository_payload "demo" "" true)).status = 422 ∧
    containsStr "already exists" (strLower "Validation Failed") = false ∧
    containsStr "422" "Failed to create repository: Validation Failed" = false := by
  refine ⟨by decide, by decide, by decide, by decide⟩

/-- C9 (amended): `create_repository` is fatal exactly when the create
response is neither a 201 nor a 422 whose message contains
"already exists", or when the fallback fetch of the existing repository
itself fails; the fatal error surfaces the remote message in the 422
case and the remote status plus raw body otherwise, and a fallback
fetch failure is propagated as-is. -/
theorem create_repository_error_cases (api : Api) (n d : String) (p : Bool) :
    (exceptIsError (create_repository api n d p).2 = true ↔
      (((api.createRepo (create_repository_payload n d p)).status ≠ 201 ∧
        ((api.createRepo (create_repository_payload n d p)).status = 422 →
          containsStr "already exists" (strLower ((api.createRepo
            (create_repository_payload n d p)).message.getD "Unknown error")) = false)) ∨
       ((api.createRepo (create_repository_payload n d p)).status = 422 ∧
        containsStr "already exists" (strLower ((api.createRepo
          (create_repository_payload n d p)).message.getD "Unknown error")) = true ∧
        exceptIsError (get_repository api n) = true))) ∧
    ((api.createRepo (create_repository_payload n d p)).status = 422 →
      containsStr "already exists" (strLower ((api.createRepo
        (create_repository_payload n d p)).message.getD "Unknown error")) = false →
      (create_repository api n d p).2 = Except.error ("Failed to create repository: "
        ++ (api.createRepo (create_repository_payload n d p)).message.getD "Unknown error")) ∧
    ((api.createRepo (create_repository_payload n d p)).status ≠ 201 →
      (api.createRepo (create_repository_payload n d p)).status ≠ 422 →
      (create_repository api n d p).2 = Except.error ("Failed to create repository: "
        ++ toString (api.createRepo (create_repository_payload n d p)).status ++ " - "
        ++ (api.createRepo (create_repository_payload n d p)).text)) ∧
    (∀ e, (api.createRepo (create_repository_payload n d p)).status = 422 →
      containsStr "already exists" (strLower ((api.createRepo
        (create_repository_payload n d p)).message.getD "Unknown error")) = true →
      get_repository api n = Except.error e →
      (create_repository api n d p).2 = Except.error e) := by
  simp only [create_repository]
  by_cases h201 : (api.createRepo (create_repository_payload n d p)).status = 201
  · simp [h201, exceptIsError]
  · by_cases h422 : (api.createRepo (create_repository_payload n d p)).status = 422
    · by_cases hair : containsStr "already exists" (strLower ((api.createRepo
        (create_repository_payload n d p)).message.getD "Unknown error")) = true
      · simp [h201, h422, hair, exceptIsError]
      · have hair' : containsStr "already exists" (strLower ((api.createRepo
          (create_repository_payload n d p)).message.getD "Unknown error")) = false := by
          cases hc : containsStr "already exists" (strLower ((api.createRepo
            (create_repository_payload n d p)).message.getD "Unknown error"))
          · rfl
          · exact absurd hc hair
        simp [h201, h422, hair', exceptIsError]
    · simp [h201, h422, exceptIsError]

/-- C9 witness: `create_repository_error_cases` applied to the concrete
non-conflict 422 oracle. -/
theorem create_repository_error_cases_witness :
    (create_repository api422bad "demo").2 =
      Except.error "Failed to create repository: Validation Failed" := by
  have h := (create_repository_error_cases api422bad "demo" "" true).2.1
    (by decide) (by decide)
  rw [h]; decide

/-- C8: when repository creation and local initialization succeed but
the push fails after a successful local commit, `setup` does not abort:
it records the non-fatal warning with the manual-recovery instruction
and still completes, reporting the repository web URL and the local
path. -/
theorem setup_push_failure_nonfatal (env : SetupEnv) (sa : SetupArgs)
    (repo_data : RepoData)
    (hcreate : (create_repository env.api sa.repo_name sa.description).2 =
      Except.ok repo_data)
    (hinit : init_local_repo env.init repo_data =
      Except.ok (toSshUrl repo_data.clone_url))
    (hpush : commit_and_push env.git "main" = Except.error (GitCmd.push "main")) :
    (setup env sa).result = Except.ok
      { warnings := ["Warning: Failed to push to remote",
          "  You can manually push later with: git push -u origin main"],
        url := repo_data.html_url,
        path := sa.path.getD env.cwd,
        fs := create_initial_files env.fs sa.repo_name sa.description } := by
  simp only [setup, hcreate, hinit, hpush]

/-- C8 witness: `setup_push_failure_nonfatal` on the concrete world
whose push fails. -/
theorem setup_push_failure_nonfatal_witness :
    (setup envPushFail saDemo).result = Except.ok
      { warnings := ["Warning: Failed to push to remote",
          "  You can manually push later with: git push -u origin main"],
        url := repo0.html_url,
        path := saDemo.path.getD envPushFail.cwd,
        fs := create_initial_files envPushFail.fs saDemo.repo_name saDemo.description } :=
  setup_push_failure_nonfatal envPushFail saDemo repo0
    (by decide) (by decide) (by decide)

/-- C10: any `subprocess.CalledProcessError` raised inside
`commit_and_push` — staging, committing, branch switching or pushing —
is caught by the single handler in `setup` and downgraded to the same
non-fatal push-failure warning, after which the run still completes and
reports the repository URL and local path. -/
theorem setup_commit_and_push_failure_nonfatal (env : SetupEnv) (sa : SetupArgs)
    (repo_data : RepoData) (c : GitCmd)
    (hcreate : (create_repository env.api sa.repo_name sa.description).2 =
      Except.ok repo_data)
    (hinit : init_local_repo env.init repo_data =
      Except.ok (toSshUrl repo_data.clone_url))
    (hfail : commit_and_push env.git "main" = Except.error c) :
    (setup env sa).result = Except.ok
      { warnings := ["Warning: Failed to push to remote",
          "  You can manually push later with: git push -u origin main"],
        url := repo_data.html_url,
        path := sa.path.getD env.cwd,
        fs := create_initial_files env.fs sa.repo_name sa.description } := by
  simp only [setup, hcreate, hinit, hfail]

/-- C10 witness: `setup_commit_and_push_failure_nonfatal` on the
concrete world whose `git commit` (not the push) fails. -/
theorem setup_commit_and_push_failure_nonfatal_witness :
    (setup envCommitFail saDemo).result = Except.ok
      { warnings := ["Warning: Failed to push to remote",
          "  You can manually push later with: git push -u origin main"],
        url := repo0.html_url,
        path := saDemo.path.getD envCommitFail.cwd,
        fs := create_initial_files envCommitFail.fs saDemo.repo_name saDemo.description } :=
  setup_commit_and_push_failure_nonfatal envCommitFail saDemo repo0 GitCmd.commit
    (by decide) (by decide) (by decide)

end ClaudeUp

